import Mathlib

/-
Verification of the registry digest-resolution engine of
`src/general/check_images.py` (homelab-scripts).

The Python code is shallowly embedded:
- `str.split(sep)`, `str.rsplit(sep, 1)` and `sep.join(...)` are embedded
  over `List Char` (`pySplit`, `pyJoin`); a Python string is a `List Char`
  at the parser level and a Lean `String` elsewhere.
- Python truthiness of an `Optional[str]` (`if not x`) is `truthy`:
  `None` and the empty string are falsy.
- Network calls (`requests.get` / `requests.head`) are modelled by
  explicit response values: `none` stands for a raised exception
  (timeout / connection error), `some r` for a received response.
  `response.headers.get("Docker-Content-Digest")` is the
  `dockerContentDigest` field, `response.content` the `body` field, and
  `response.json().get("token")` the `jsonToken` field (`none` when
  `response.json()` itself raises, `some t` when the body parses and
  `t` is the optional `token` entry).
- `hashlib.sha256(bytes).hexdigest()` is an abstract parameter
  `sha256hex : List Nat → String` of the environment: the claims under
  check concern which bytes are hashed and how the result is formatted,
  not the internals of SHA-256.
-/

namespace CheckImages

/-! ## Python string primitives over `List Char` -/

/-- Auxiliary of `pySplit`: returns (first field, remaining fields). -/
def pySplitAux (c : Char) : List Char → List Char × List (List Char)
  | [] => ([], [])
  | x :: xs =>
    let r := pySplitAux c xs
    if x = c then ([], r.1 :: r.2) else (x :: r.1, r.2)

/-- Python `s.split(c)` for a one-character separator: always returns at
least one field; `"".split(c) == [""]`. -/
def pySplit (c : Char) (l : List Char) : List (List Char) :=
  (pySplitAux c l).1 :: (pySplitAux c l).2

/-- Python `c.join(ls)` for a one-character separator. -/
def pyJoin (c : Char) : List (List Char) → List Char
  | [] => []
  | [x] => x
  | x :: y :: t => x ++ c :: pyJoin c (y :: t)

/-! ## ReferenceParser — `parse_image_name`, lines 106-139 -/

/-- Embedding of `parse_image_name(image)` returning
`(registry, repo, tag)`.

Line map (to `src/general/check_images.py`):
- `parts = image.split('/')` — line 111;
- first branch (line 113): `len(parts) >= 2 and '.' in parts[0]`;
  tag from `repo_with_tag.rsplit(':', 1)[1]` when `':' in repo_with_tag`
  (the text after the last `':'`, i.e. the last field of the full
  `':'`-split), else `'latest'` (lines 119-124); the returned repo is
  `'/'.join(parts[1:]).split(':')[0]` (line 126), i.e. the first field
  of the `':'`-split;
- second branch (line 128): `len(parts) == 2`; repo
  `f"{parts[0]}/{parts[1].split(':')[0]}"`, tag `parts[1].split(':')[1]`
  when `':' in parts[1]` else `'latest'` (lines 130-132);
- else branch (lines 133-137): repo `"library/" + parts[0].split(':')[0]`,
  tag `parts[0].split(':')[1]` when `':' in parts[0]` else `'latest'`.

`headD`/`getD`/`getLastD` stand for the guarded Python indexings, whose
indices are in range whenever the guards hold. -/
def parse_image_name (image : List Char) : List Char × List Char × List Char :=
  let parts := pySplit '/' image
  if 2 ≤ parts.length ∧ '.' ∈ parts.headD [] then
    let repoWithTag := pyJoin '/' parts.tail
    (parts.headD [],
     (pySplit ':' repoWithTag).headD [],
     if ':' ∈ repoWithTag then (pySplit ':' repoWithTag).getLastD []
     else "latest".data)
  else if parts.length = 2 then
    ("docker.io".data,
     parts.headD [] ++ '/' :: (pySplit ':' (parts.getD 1 [])).headD [],
     if ':' ∈ parts.getD 1 [] then (pySplit ':' (parts.getD 1 [])).getD 1 []
     else "latest".data)
  else
    ("docker.io".data,
     "library/".data ++ (pySplit ':' (parts.headD [])).headD [],
     if ':' ∈ parts.headD [] then (pySplit ':' (parts.headD [])).getD 1 []
     else "latest".data)

/-! ## UpdateComparator — `check_for_updates`, lines 338-360 -/

/-- Python truthiness of an `Optional[str]`: `None` and `""` are falsy. -/
def truthy : Option String → Bool
  | none => false
  | some s => if s = "" then false else true

/-- Embedding of `check_for_updates` (lines 338-360) as a function of the
two digest lookups (the external `LocalDigestProvider` result and the
`get_latest_digest` result). Returns the tuple
`(has_update, local_digest, remote_digest, error_msg)`:
- lines 350-354 compute `error_msg`;
- lines 356-357 return `(False, local, remote, error_msg)` when either
  digest is falsy;
- lines 359-360 return `local_digest != remote_digest` otherwise. -/
def check_for_updates (registry : String) (local_digest remote_digest : Option String) :
    Bool × Option String × Option String × Option String :=
  let error_msg : Option String :=
    if truthy local_digest = false then some "No local digest"
    else if truthy remote_digest = false then some ("Cannot reach " ++ registry)
    else none
  if truthy local_digest = false ∨ truthy remote_digest = false then
    (false, local_digest, remote_digest, error_msg)
  else
    (if local_digest = remote_digest then false else true,
     local_digest, remote_digest, error_msg)

/-- The three terminal outcomes of one check (spec §3 `CheckOutcome.status`). -/
inductive UpdateStatus where
  | UP_TO_DATE
  | UPDATE_AVAILABLE
  | UNVERIFIABLE
deriving DecidableEq

/-- Status of one `check_for_updates` result as `main` classifies it
(lines 453-464): `checked` is `local_digest and remote_digest`
(truthiness), and a checked result is an update exactly when
`has_update` holds. -/
def outcomeStatus (r : Bool × Option String × Option String × Option String) :
    UpdateStatus :=
  if truthy r.2.1 = true ∧ truthy r.2.2.1 = true then
    if r.1 = true then UpdateStatus.UPDATE_AVAILABLE else UpdateStatus.UP_TO_DATE
  else UpdateStatus.UNVERIFIABLE

/-- The per-container loop of `main` (lines 447-474): each container
contributes its registry and the two digest-lookup results; the recorded
result is the `check_for_updates` tuple. -/
def scanChecks (checks : List (String × Option String × Option String)) :
    List (Bool × Option String × Option String × Option String) :=
  checks.map fun c => check_for_updates c.1 c.2.1 c.2.2

/-- Process exit code of `main` (lines 482-485):
`sys.exit(1)` when `any(r['has_update'] for r in results)`, else
`sys.exit(0)`. -/
def exitCode (checks : List (String × Option String × Option String)) : Nat :=
  if (scanChecks checks).any (fun r => r.1) then 1 else 0

/-! ## Network model for AuthProvider / DigestResolver -/

/-- A `requests.head` response as the Docker Hub branch consumes it:
its status code and `headers.get('Docker-Content-Digest')` (the value is
`some ""` when the header is present with an empty value, `none` when
absent). HEAD responses carry no body and the code never reads one. -/
structure HeadResponse where
  status : Nat
  dockerContentDigest : Option String
deriving DecidableEq

/-- A `requests.get` manifest response as `get_ghcr_digest` /
`get_generic_registry_digest` consume it: status code,
`headers.get('Docker-Content-Digest')`, and the raw body bytes
`response.content`. -/
structure GetResponse where
  status : Nat
  dockerContentDigest : Option String
  body : List Nat
deriving DecidableEq

/-- A token-endpoint response: status code and `jsonToken`, where
`none` means `response.json()` raises (malformed body) and `some t`
means the body parses with `t = parsed.get('token')` (`t = none` when
the `token` key is missing). -/
structure TokenResponse where
  status : Nat
  jsonToken : Option (Option String)
deriving DecidableEq

/-- One iteration of the `for auth_url in [...]` loop of
`get_generic_registry_token` (lines 212-221): `none` means the attempt
falls through to the next URL (`continue`) — request raised, non-200
status, or `response.json()` raised; `some t` means the function returns
`t` right here (`return response.json().get('token')`, line 219), where
`t` may itself be `none` when the parsed body has no `token` key. -/
def tryAttempt : Option TokenResponse → Option (Option String)
  | none => none
  | some resp =>
    if resp.status = 200 then
      match resp.jsonToken with
      | none => none
      | some t => some t
    else none

/-- The ordered candidate auth endpoints of
`get_generic_registry_token` (lines 212-215). -/
def authUrls (registry repo : String) : List String :=
  ["https://" ++ registry ++ "/token?scope=repository:" ++ repo ++ ":pull",
   "https://auth." ++ registry ++ "/token?scope=repository:" ++ repo ++ ":pull"]

/-- The `for auth_url in [...]` loop body over the remaining URLs. -/
def tokenLoop (net : String → Option TokenResponse) : List String → Option String
  | [] => none
  | u :: rest =>
    match tryAttempt (net u) with
    | some t => t
    | none => tokenLoop net rest

/-- Embedding of `get_generic_registry_token(registry, repo)`
(lines 208-225): tries the two candidate endpoints in order; `net` maps
a URL to the outcome of `requests.get` on it (`none` = raised). -/
def get_generic_registry_token (net : String → Option TokenResponse)
    (registry repo : String) : Option String :=
  tokenLoop net (authUrls registry repo)

/-- The claim's reading of one auth attempt (for comparison with the
code): the token this attempt successfully obtains — present exactly
when the request returns HTTP 200, the body parses, and the `token`
field is there. -/
def attemptToken : Option TokenResponse → Option String
  | none => none
  | some resp =>
    if resp.status = 200 then
      match resp.jsonToken with
      | none => none
      | some t => t
    else none

/-- Stated from the claim's words, for refinement comparison with
`get_generic_registry_token`: return the token of the first attempt, in
endpoint order, that successfully obtains one; absence only when no
attempt does. -/
def firstObtained (net : String → Option TokenResponse) : List String → Option String
  | [] => none
  | u :: rest =>
    match attemptToken (net u) with
    | some t => some t
    | none => firstObtained net rest

/-- The claim's version of generic auth (see `firstObtained`). -/
def genericTokenClaim (net : String → Option TokenResponse)
    (registry repo : String) : Option String :=
  firstObtained net (authUrls registry repo)

/-- Per-check network environment: every response the registry side of
one check can observe, plus the abstract SHA-256 hex digest function. -/
structure RegistryEnv where
  sha256hex : List Nat → String
  ghcrToken : Option String
  ghcrGet : Option GetResponse
  hubToken : Option String
  hubHead : Option HeadResponse
  net : String → Option TokenResponse
  genericGet : Option GetResponse

/-- Embedding of `get_ghcr_digest(repo, tag)` (lines 173-205). The
token (line 177) only shapes the request headers, which the response
abstraction absorbs. On HTTP 200 (lines 192-200):
`digest = response.headers.get('Docker-Content-Digest')`;
`if digest: return digest` — Python truthiness, so an empty header value
falls through — else return
`f"sha256:{hashlib.sha256(response.content).hexdigest()}"`.
Any exception or non-200 yields `None` (lines 202-205). -/
def get_ghcr_digest (env : RegistryEnv) : Option String :=
  let _token := env.ghcrToken
  match env.ghcrGet with
  | none => none
  | some resp =>
    if resp.status = 200 then
      if truthy resp.dockerContentDigest = true then resp.dockerContentDigest
      else some ("sha256:" ++ env.sha256hex resp.body)
    else none

/-- Embedding of `get_generic_registry_digest(registry, repo, tag)`
(lines 228-262): token from `get_generic_registry_token` (line 232,
request-header only), then the same 200-handler as GHCR
(lines 249-257). -/
def get_generic_registry_digest (env : RegistryEnv) (registry repo : String) :
    Option String :=
  let _token := get_generic_registry_token env.net registry repo
  match env.genericGet with
  | none => none
  | some resp =>
    if resp.status = 200 then
      if truthy resp.dockerContentDigest = true then resp.dockerContentDigest
      else some ("sha256:" ++ env.sha256hex resp.body)
    else none

/-- Embedding of `get_latest_digest(registry, repo, tag)`
(lines 265-300): dispatch on the registry string; the Docker Hub branch
(lines 273-296) requires a truthy token (`if not token: return None`),
then issues a HEAD request and on HTTP 200 returns
`response.headers.get('Docker-Content-Digest')` — it never reads a
response body; any exception or non-200 yields `None`. -/
def get_latest_digest (env : RegistryEnv) (registry repo _tag : String) :
    Option String :=
  if registry = "ghcr.io" then get_ghcr_digest env
  else if registry = "docker.io" then
    if truthy env.hubToken = false then none
    else
      match env.hubHead with
      | none => none
      | some resp =>
        if resp.status = 200 then resp.dockerContentDigest else none
  else get_generic_registry_digest env registry repo

/-! ### Concrete environments used by witnesses and counterexamples -/

/-- Environment with no Docker Hub token obtainable. -/
def envHubNone : RegistryEnv :=
  ⟨fun _ => "", none, none, none, none, fun _ => none, none⟩

/-- Environment whose GHCR manifest GET answers 200 with a digest header. -/
def envGhcrHeader : RegistryEnv :=
  ⟨fun _ => "deadbeef", none, some ⟨200, some "sha256:xyz", []⟩, none, none,
   fun _ => none, none⟩

/-- Environment whose GHCR manifest GET answers 200 with the
`Docker-Content-Digest` header present but empty. -/
def envGhcrEmptyHeader : RegistryEnv :=
  ⟨fun _ => "beef", none, some ⟨200, some "", [0]⟩, none, none,
   fun _ => none, none⟩

/-- Network where every token endpoint answers 200 with token `"tok"`. -/
def netTokenEverywhere : String → Option TokenResponse :=
  fun _ => some ⟨200, some (some "tok")⟩

/-- Network where the first generic auth endpoint answers 200 with a
JSON body that has no `token` key, and the `auth.`-prefixed endpoint
answers 200 with token `"tok2"`. -/
def netFirstTokenless : String → Option TokenResponse :=
  fun u =>
    if u = "https://auth.example.com/token?scope=repository:app:pull"
    then some ⟨200, some (some "tok2")⟩
    else some ⟨200, some none⟩

/-! ## Helper lemmas about the string primitives -/

theorem pySplitAux_of_not_mem (c : Char) (l : List Char) (h : c ∉ l) :
    pySplitAux c l = (l, []) := by
  induction l with
  | nil => rfl
  | cons x xs ih =>
    have hx : ¬(x = c) := fun he => h (he ▸ List.mem_cons_self x xs)
    have h' : c ∉ xs := fun hm => h (List.mem_cons_of_mem _ hm)
    simp [pySplitAux, hx, ih h']

theorem pySplit_of_not_mem (c : Char) (l : List Char) (h : c ∉ l) :
    pySplit c l = [l] := by
  simp [pySplit, pySplitAux_of_not_mem c l h]

theorem pySplitAux_append_cons (c : Char) (pre rest : List Char) (h : c ∉ pre) :
    pySplitAux c (pre ++ c :: rest) =
      ((pre : List Char), pySplit c rest) := by
  induction pre with
  | nil => simp [pySplitAux, pySplit]
  | cons x xs ih =>
    have hx : ¬(x = c) := fun he => h (he ▸ List.mem_cons_self x xs)
    have h' : c ∉ xs := fun hm => h (List.mem_cons_of_mem _ hm)
    simp [pySplitAux, hx, ih h']

theorem pySplit_append_cons (c : Char) (pre rest : List Char) (h : c ∉ pre) :
    pySplit c (pre ++ c :: rest) = pre :: pySplit c rest := by
  simp [pySplit, pySplitAux_append_cons c pre rest h]

theorem pySplitAux_concat_sep (c : Char) (l : List Char) :
    pySplitAux c (l ++ [c]) = ((pySplitAux c l).1, (pySplitAux c l).2 ++ [[]]) := by
  induction l with
  | nil => simp [pySplitAux]
  | cons x xs ih =>
    by_cases hx : x = c <;> simp [pySplitAux, hx, ih]

theorem pySplit_concat_sep (c : Char) (l : List Char) :
    pySplit c (l ++ [c]) = pySplit c l ++ [[]] := by
  simp [pySplit, pySplitAux_concat_sep]

theorem pySplitAux_fst (c : Char) (l : List Char) :
    (pySplitAux c l).1 = l.takeWhile (fun x => x != c) := by
  induction l with
  | nil => rfl
  | cons x xs ih =>
    by_cases hx : x = c <;> simp [pySplitAux, List.takeWhile_cons, hx, ih]

theorem pySplit_headD (c : Char) (l : List Char) :
    (pySplit c l).headD [] = l.takeWhile (fun x => x != c) := by
  simp [pySplit, pySplitAux_fst]

theorem pySplit_getD_one (c : Char) (pre rest : List Char) (h : c ∉ pre) :
    (pySplit c (pre ++ c :: rest)).getD 1 [] =
      rest.takeWhile (fun x => x != c) := by
  rw [pySplit_append_cons c pre rest h]
  simp [pySplit, pySplitAux_fst]

theorem lastD_concat {α : Type} (l : List α) (a d : α) :
    (l ++ [a]).getLastD d = a := by
  induction l with
  | nil => rfl
  | cons x xs ih =>
    cases xs <;> simp_all [List.getLastD]

theorem pySplit_trailing_sep_lastD (c : Char) (l : List Char) :
    (pySplit c (l ++ [c])).getLastD [] = [] := by
  rw [pySplit_concat_sep]
  exact lastD_concat _ _ _

theorem pyJoin_concat (c : Char) (ls : List (List Char)) (x : List Char) :
    ∃ pre, pyJoin c (ls ++ [x]) = pre ++ x := by
  induction ls with
  | nil => exact ⟨[], rfl⟩
  | cons a t ih =>
    cases t with
    | nil => exact ⟨a ++ [c], by simp [pyJoin]⟩
    | cons b t' =>
      obtain ⟨pre, hp⟩ := ih
      have hp' : pyJoin c (b :: (t' ++ [x])) = pre ++ x := hp
      refine ⟨a ++ c :: pre, ?_⟩
      simp [pyJoin, hp']

/-! ## Comparator and exit-signal claims -/

theorem check_hasUpdate_iff_status (registry : String) (l r : Option String) :
    (check_for_updates registry l r).1 = true ↔
      outcomeStatus (check_for_updates registry l r) =
        UpdateStatus.UPDATE_AVAILABLE := by
  by_cases h1 : truthy l = false
  · simp [check_for_updates, outcomeStatus, h1]
  · by_cases h2 : truthy r = false
    · simp [check_for_updates, outcomeStatus, h1, h2]
    · have h1' : truthy l = true := by simpa using h1
      have h2' : truthy r = true := by simpa using h2
      by_cases he : l = r <;>
        simp [check_for_updates, outcomeStatus, h1', h2', he]

/-- C1 (amended): for every pair of optional local and remote digests,
if either digest is absent the update check yields the `UNVERIFIABLE`
outcome, with reason string `"No local digest"` when the local digest is
absent or empty — taking priority regardless of remote reachability —
and reason `"Cannot reach <registry>"` naming the registry otherwise.
The embedded `check_for_updates` is a total function, so no exception
escapes. (The claim's quoted reason strings `"no local digest"` and
`"registry unreachable: <registry>"` do not occur in the code; see the
counterexample.) -/
theorem check_reason_unverifiable (registry : String) (l r : Option String)
    (habs : l = none ∨ r = none) :
    outcomeStatus (check_for_updates registry l r) = UpdateStatus.UNVERIFIABLE ∧
    (check_for_updates registry l r).2.2.2 =
      (if truthy l = false then some "No local digest"
       else some ("Cannot reach " ++ registry)) := by
  by_cases h1 : truthy l = false
  · simp [check_for_updates, outcomeStatus, h1]
  · have h1' : truthy l = true := by simpa using h1
    have hr : r = none := by
      rcases habs with h | h
      · rw [h] at h1'; exact absurd h1' (by decide)
      · exact h
    subst hr
    have hnone : truthy (none : Option String) = false := rfl
    simp [check_for_updates, outcomeStatus, h1', hnone]

/-- Witness for `check_reason_unverifiable` at a concrete input with the
local digest absent and the remote digest present. -/
theorem check_reason_unverifiable_witness :
    outcomeStatus (check_for_updates "docker.io" none (some "sha256:aaa")) =
      UpdateStatus.UNVERIFIABLE ∧
    (check_for_updates "docker.io" none (some "sha256:aaa")).2.2.2 =
      some "No local digest" := by
  have h := check_reason_unverifiable "docker.io" none (some "sha256:aaa")
    (Or.inl rfl)
  exact ⟨h.1, by simpa using h.2⟩

/-- C1 counterexample: the reason strings produced by the code are
`"No local digest"` and `"Cannot reach <registry>"`, not the claim's
`"no local digest"` and `"registry unreachable: <registry>"`. -/
theorem check_reason_strings_cex :
    (check_for_updates "docker.io" none (some "sha256:aaa")).2.2.2 =
      some "No local digest" ∧
    ("No local digest" : String) ≠ "no local digest" ∧
    (check_for_updates "docker.io" (some "sha256:aaa") none).2.2.2 =
      some "Cannot reach docker.io" ∧
    ("Cannot reach docker.io" : String) ≠ "registry unreachable: docker.io" := by
  refine ⟨rfl, by decide, rfl, by decide⟩

/-- C2: when both digests are present (as digest values, which are
non-empty strings — Python's falsy test on the empty string makes `""`
behave as absent, and a `DigestValue` of the data model is never the
empty string), the comparator reports `UP_TO_DATE` exactly when the two
digest strings are equal under exact, case-sensitive string equality —
no normalization of any kind, algorithm prefix included — and
`UPDATE_AVAILABLE` exactly when they are unequal. Two digests that
differ only in letter case are therefore a mismatch (see the witness). -/
theorem check_digest_equality_thm (registry l r : String)
    (hl : l ≠ "") (hr : r ≠ "") :
    (outcomeStatus (check_for_updates registry (some l) (some r)) =
        UpdateStatus.UP_TO_DATE ↔ l = r) ∧
    (outcomeStatus (check_for_updates registry (some l) (some r)) =
        UpdateStatus.UPDATE_AVAILABLE ↔ l ≠ r) := by
  have hl' : truthy (some l) = true := by simp [truthy, hl]
  have hr' : truthy (some r) = true := by simp [truthy, hr]
  by_cases he : l = r <;>
    simp [check_for_updates, outcomeStatus, hl', hr', he]

/-- Witness for `check_digest_equality_thm`: two digests differing only
in letter case are reported as an available update. -/
theorem check_digest_equality_witness :
    outcomeStatus (check_for_updates "docker.io"
        (some "sha256:ABC") (some "sha256:abc")) =
      UpdateStatus.UPDATE_AVAILABLE :=
  (check_digest_equality_thm "docker.io" "sha256:ABC" "sha256:abc"
    (by decide) (by decide)).2.mpr (by decide)

/-- C3: over every sequence of per-container check inputs, the process
exit code is 1 exactly when at least one recorded outcome is
`UPDATE_AVAILABLE`; `UNVERIFIABLE` outcomes alone never produce the
failure signal, because `check_for_updates` returns
`has_update = False` whenever either digest is missing (lines 356-357). -/
theorem exit_signal_iff_update_available
    (checks : List (String × Option String × Option String)) :
    exitCode checks = 1 ↔
      ∃ r ∈ scanChecks checks,
        outcomeStatus r = UpdateStatus.UPDATE_AVAILABLE := by
  unfold exitCode
  by_cases h : (scanChecks checks).any (fun r => r.1) = true
  · simp only [h, if_true, true_iff]
    rw [List.any_eq_true] at h
    obtain ⟨r, hmem, hr⟩ := h
    refine ⟨r, hmem, ?_⟩
    obtain ⟨c, _, rfl⟩ := List.mem_map.mp hmem
    exact (check_hasUpdate_iff_status _ _ _).mp hr
  · simp only [h, if_false]
    constructor
    · intro h0; exact absurd h0 (by norm_num)
    · rintro ⟨r, hmem, hst⟩
      exfalso
      apply h
      rw [List.any_eq_true]
      refine ⟨r, hmem, ?_⟩
      obtain ⟨c, _, rfl⟩ := List.mem_map.mp hmem
      exact (check_hasUpdate_iff_status _ _ _).mpr hst

/-! ## ReferenceParser claims -/

theorem parse_branch1 (image : List Char)
    (h : 2 ≤ (pySplit '/' image).length ∧ '.' ∈ (pySplit '/' image).headD []) :
    parse_image_name image =
      ((pySplit '/' image).headD [],
       (pySplit ':' (pyJoin '/' (pySplit '/' image).tail)).headD [],
       if ':' ∈ pyJoin '/' (pySplit '/' image).tail then
         (pySplit ':' (pyJoin '/' (pySplit '/' image).tail)).getLastD []
       else "latest".data) := by
  unfold parse_image_name
  rw [if_pos h]

theorem parse_branch2 (image : List Char)
    (h1 : ¬(2 ≤ (pySplit '/' image).length ∧ '.' ∈ (pySplit '/' image).headD []))
    (h2 : (pySplit '/' image).length = 2) :
    parse_image_name image =
      ("docker.io".data,
       (pySplit '/' image).headD [] ++
         '/' :: (pySplit ':' ((pySplit '/' image).getD 1 [])).headD [],
       if ':' ∈ (pySplit '/' image).getD 1 [] then
         (pySplit ':' ((pySplit '/' image).getD 1 [])).getD 1 []
       else "latest".data) := by
  unfold parse_image_name
  rw [if_neg h1, if_pos h2]

theorem parse_branch3 (image : List Char)
    (h1 : ¬(2 ≤ (pySplit '/' image).length ∧ '.' ∈ (pySplit '/' image).headD []))
    (h2 : ¬((pySplit '/' image).length = 2)) :
    parse_image_name image =
      ("docker.io".data,
       "library/".data ++ (pySplit ':' ((pySplit '/' image).headD [])).headD [],
       if ':' ∈ (pySplit '/' image).headD [] then
         (pySplit ':' ((pySplit '/' image).headD [])).getD 1 []
       else "latest".data) := by
  unfold parse_image_name
  rw [if_neg h1, if_neg h2]

/-- C9: the reference parser is a total function — the embedding is a
Lean function, every Python indexing it performs is guarded in range —
and for every input string, the empty string included, it produces a
(registry, repository, tag) triple whose registry component is
non-empty: either the dotted first segment or the default
`"docker.io"`. On the empty string it yields
`("docker.io", "library/", "latest")`. -/
theorem parser_total_registry_nonempty (image : List Char) :
    (parse_image_name image).1 ≠ [] ∧
    parse_image_name [] = ("docker.io".data, "library/".data, "latest".data) := by
  constructor
  · by_cases h : 2 ≤ (pySplit '/' image).length ∧ '.' ∈ (pySplit '/' image).headD []
    · have h1 : (parse_image_name image).1 = (pySplit '/' image).headD [] := by
        rw [parse_branch1 image h]
      rw [h1]
      intro he
      rw [he] at h
      exact absurd h.2 (List.not_mem_nil '.')
    · by_cases h2 : (pySplit '/' image).length = 2
      · rw [parse_branch2 image h h2]
        show "docker.io".data ≠ []
        decide
      · rw [parse_branch3 image h h2]
        show "docker.io".data ≠ []
        decide
  · decide

/-- C4 (amended): for every image reference string with at least two
`/`-separated segments whose first segment contains a `.`, parsing
yields that first segment as the registry component. (On a
single-segment reference containing a `.` the dot heuristic of line 113
does not fire — `len(parts) >= 2` fails — and the registry defaults to
`"docker.io"`; see the counterexample.) -/
theorem registry_segment_thm (image : List Char)
    (h2 : 2 ≤ (pySplit '/' image).length)
    (hdot : '.' ∈ (pySplit '/' image).headD []) :
    (parse_image_name image).1 = (pySplit '/' image).headD [] := by
  rw [parse_branch1 image ⟨h2, hdot⟩]

/-- Witness for `registry_segment_thm` at `"ghcr.io/app"`. -/
theorem registry_segment_witness :
    (parse_image_name "ghcr.io/app".data).1 = "ghcr.io".data := by
  rw [registry_segment_thm "ghcr.io/app".data (by decide) (by decide)]
  decide

/-- C4 counterexample: `"a.b"` is an image reference whose first
`/`-separated segment (the whole string) contains a `.`, yet parsing
yields registry `"docker.io"`, not that segment. -/
theorem registry_segment_cex :
    '.' ∈ (pySplit '/' "a.b".data).headD [] ∧
    (parse_image_name "a.b".data).1 = "docker.io".data ∧
    (parse_image_name "a.b".data).1 ≠ "a.b".data := by decide

/-- C8 (amended): for every single-segment image reference (no `/`),
parsing yields registry `"docker.io"` and repository `"library/"`
prepended to the part of the name before its first `:`; when a `:` is
present the tag is the part strictly between the first `:` and the next
`:` if any (the whole remainder when the first `:` is the only one),
else `"latest"`. (The code takes `split(':')[1]`, the field after the
FIRST colon — not the part after a trailing colon: `"a:b:c"` parses to
tag `"b"`; see the counterexample.) -/
theorem single_segment_parse_thm (p : List Char) (hslash : '/' ∉ p) :
    (parse_image_name p).1 = "docker.io".data ∧
    (parse_image_name p).2.1 =
      "library/".data ++ p.takeWhile (fun x => x != ':') ∧
    (':' ∉ p → (parse_image_name p).2.2 = "latest".data) ∧
    (∀ stem rest, p = stem ++ ':' :: rest → ':' ∉ stem →
      (parse_image_name p).2.2 = rest.takeWhile (fun x => x != ':')) := by
  have hp : pySplit '/' p = [p] := pySplit_of_not_mem _ _ hslash
  have hA : ¬(2 ≤ (pySplit '/' p).length ∧ '.' ∈ (pySplit '/' p).headD []) := by
    rw [hp]
    rintro ⟨h2, -⟩
    simp at h2
  have hB : ¬((pySplit '/' p).length = 2) := by
    rw [hp]
    simp
  have hbr := parse_branch3 p hA hB
  rw [hp] at hbr
  simp only [List.headD_cons] at hbr
  refine ⟨by rw [hbr], ?_, ?_, ?_⟩
  · rw [hbr, pySplit_headD]
  · intro hc
    rw [hbr]
    show (if ':' ∈ p then (pySplit ':' p).getD 1 [] else "latest".data) = _
    rw [if_neg hc]
  · intro stem rest hdec hstem
    rw [hbr]
    show (if ':' ∈ p then (pySplit ':' p).getD 1 [] else "latest".data) = _
    subst hdec
    have hin : ':' ∈ stem ++ ':' :: rest :=
      List.mem_append_right _ (List.mem_cons_self ':' rest)
    rw [if_pos hin, pySplit_getD_one ':' stem rest hstem]

/-- Witness for `single_segment_parse_thm` at `"r:7"`. -/
theorem single_segment_parse_witness :
    (parse_image_name "r:7".data).2.2 = "7".data := by
  have h := (single_segment_parse_thm "r:7".data (by decide)).2.2.2
    "r".data "7".data (by decide) (by decide)
  simpa using h

/-- C8 counterexample: for the single-segment reference `"a:b:c"` the
parser returns tag `"b"` — the field between the first and second
colon — not the part after the trailing colon (`"c"`), nor everything
after the first colon (`"b:c"`). -/
theorem single_segment_parse_cex :
    (parse_image_name "a:b:c".data).2.2 = "b".data ∧
    ("b".data : List Char) ≠ "c".data ∧
    ("b".data : List Char) ≠ "b:c".data := by decide

/-- C10 (amended): the parser returns the empty string as the tag —
rather than defaulting to `"latest"` — for every image reference whose
final `/`-separated segment is `stem ++ ":"`, provided either
(a) the reference has at most two segments and `stem` contains no
further `:`, or (b) the reference has at least two segments and its
first segment contains a `.` (the registry branch, whose
`rsplit(':', 1)` always isolates the text after the last colon).
Outside these cases a trailing colon does not yield an empty tag:
`"a:b:"` parses to tag `"b"` and `"a/b/c:"` to `"latest"`; see the
counterexample. -/
theorem trailing_colon_tag_thm (image : List Char)
    (init : List (List Char)) (fin stem : List Char)
    (hsplit : pySplit '/' image = init ++ [fin])
    (hfin : fin = stem ++ [':'])
    (hcase : (init.length ≤ 1 ∧ ':' ∉ stem) ∨
             (init ≠ [] ∧ '.' ∈ (init ++ [fin]).headD [])) :
    (parse_image_name image).2.2 = [] := by
  have hinfin : ':' ∈ fin := by
    rw [hfin]
    exact List.mem_append_right _ (List.mem_cons_self ':' [])
  rcases hcase with ⟨hlen, hstem⟩ | ⟨hne, hdot⟩
  · -- (a): at most two segments, single trailing colon in the final one
    cases init with
    | nil =>
      -- one segment: the else branch, tag from parts[0].split(':')[1]
      have hs : pySplit '/' image = [fin] := by simpa using hsplit
      have hA : ¬(2 ≤ (pySplit '/' image).length ∧
          '.' ∈ (pySplit '/' image).headD []) := by
        rw [hs]
        rintro ⟨h2, -⟩
        simp at h2
      have hB : ¬((pySplit '/' image).length = 2) := by
        rw [hs]
        simp
      have hbr := parse_branch3 image hA hB
      rw [hs] at hbr
      simp only [List.headD_cons] at hbr
      rw [hbr]
      show (if ':' ∈ fin then (pySplit ':' fin).getD 1 [] else "latest".data) = _
      rw [if_pos hinfin, hfin]
      have hx : stem ++ [':'] = stem ++ ':' :: ([] : List Char) := rfl
      rw [hx, pySplit_getD_one ':' stem [] hstem]
      rfl
    | cons i0 irest =>
      cases irest with
      | cons i1 irest' => simp at hlen
      | nil =>
        have hs : pySplit '/' image = [i0, fin] := by simpa using hsplit
        by_cases hdot2 : '.' ∈ (pySplit '/' image).headD []
        · -- dotted two-segment reference: registry branch
          have hA : 2 ≤ (pySplit '/' image).length ∧
              '.' ∈ (pySplit '/' image).headD [] := by
            refine ⟨?_, hdot2⟩
            rw [hs]
            simp
          have hbr := parse_branch1 image hA
          rw [hs] at hbr
          simp only [List.tail_cons] at hbr
          have hjoin : pyJoin '/' [fin] = fin := rfl
          rw [hjoin] at hbr
          rw [hbr]
          show (if ':' ∈ fin then (pySplit ':' fin).getLastD []
            else "latest".data) = _
          rw [if_pos hinfin, hfin, pySplit_trailing_sep_lastD]
        · -- undotted two-segment reference: middle branch
          have hA : ¬(2 ≤ (pySplit '/' image).length ∧
              '.' ∈ (pySplit '/' image).headD []) := by
            rintro ⟨-, hd⟩
            exact hdot2 hd
          have hB : (pySplit '/' image).length = 2 := by
            rw [hs]
            rfl
          have hbr := parse_branch2 image hA hB
          rw [hs] at hbr
          have hget : ([i0, fin] : List (List Char)).getD 1 [] = fin := rfl
          rw [hget] at hbr
          rw [hbr]
          show (if ':' ∈ fin then (pySplit ':' fin).getD 1 []
            else "latest".data) = _
          rw [if_pos hinfin, hfin]
          have hx : stem ++ [':'] = stem ++ ':' :: ([] : List Char) := rfl
          rw [hx, pySplit_getD_one ':' stem [] hstem]
          rfl
  · -- (b): registry branch, final segment merely ends with a colon
    cases init with
    | nil => exact absurd rfl hne
    | cons i0 irest =>
      have hs : pySplit '/' image = i0 :: (irest ++ [fin]) := by
        simpa using hsplit
      have hdot' : '.' ∈ i0 := by simpa using hdot
      have hA : 2 ≤ (pySplit '/' image).length ∧
          '.' ∈ (pySplit '/' image).headD [] := by
        rw [hs]
        constructor
        · simp
        · simpa using hdot'
      have hbr := parse_branch1 image hA
      rw [hs] at hbr
      simp only [List.tail_cons] at hbr
      obtain ⟨pre, hpre⟩ := pyJoin_concat '/' irest fin
      rw [hpre] at hbr
      rw [hbr]
      show (if ':' ∈ pre ++ fin then (pySplit ':' (pre ++ fin)).getLastD []
        else "latest".data) = _
      have hin : ':' ∈ pre ++ fin := List.mem_append_right _ hinfin
      rw [if_pos hin, hfin]
      have hassoc : pre ++ (stem ++ [':']) = (pre ++ stem) ++ [':'] :=
        (List.append_assoc pre stem [':']).symm
      rw [hassoc, pySplit_trailing_sep_lastD]

/-- Witness for `trailing_colon_tag_thm` at `"nginx:"`. -/
theorem trailing_colon_tag_witness :
    (parse_image_name "nginx:".data).2.2 = [] :=
  trailing_colon_tag_thm "nginx:".data [] "nginx:".data "nginx".data
    (by decide) (by decide) (Or.inl ⟨by decide, by decide⟩)

/-- C10 counterexample: `"a:b:"` ends with a trailing colon yet parses
to tag `"b"`, and `"a/b/c:"` ends with a trailing colon yet parses to
tag `"latest"` (its three dot-less segments land in the else branch,
which reads the tag off `parts[0] = "a"`); neither tag is the empty
string. -/
theorem trailing_colon_tag_cex :
    (parse_image_name "a:b:".data).2.2 = "b".data ∧
    ("b".data : List Char) ≠ [] ∧
    (parse_image_name "a/b/c:".data).2.2 = "latest".data ∧
    ("latest".data : List Char) ≠ [] := by decide

/-! ## DigestResolver / AuthProvider claims -/

/-- C5: for registry `docker.io`, digest resolution returns absence
whenever no auth token was obtained — the token is mandatory
(`if not token: return None`, lines 275-276) — and any digest it does
return is exactly the `Docker-Content-Digest` response header of the
HEAD request on an HTTP 200 response (line 291). The Docker Hub branch
of `get_latest_digest` never reads a response body (`HeadResponse`
carries none, mirroring lines 273-296, which contain no `hashlib` call
and no `response.content` access). -/
theorem dockerhub_digest_thm (env : RegistryEnv) (repo tag : String) :
    (env.hubToken = none → get_latest_digest env "docker.io" repo tag = none) ∧
    (∀ d, get_latest_digest env "docker.io" repo tag = some d →
      truthy env.hubToken = true ∧
      ∃ resp, env.hubHead = some resp ∧ resp.status = 200 ∧
        resp.dockerContentDigest = some d) := by
  have hne : ¬(("docker.io" : String) = "ghcr.io") := by decide
  constructor
  · intro h
    simp [get_latest_digest, hne, h, truthy]
  · intro d hd
    by_cases ht : truthy env.hubToken = false
    · simp [get_latest_digest, hne, ht] at hd
    · have ht' : truthy env.hubToken = true := by simpa using ht
      refine ⟨ht', ?_⟩
      cases hh : env.hubHead with
      | none => simp [get_latest_digest, hne, ht', hh] at hd
      | some resp =>
        by_cases hs : resp.status = 200
        · refine ⟨resp, rfl, hs, ?_⟩
          simpa [get_latest_digest, hne, ht', hh, hs] using hd
        · simp [get_latest_digest, hne, ht', hh, hs] at hd

/-- Witness for `dockerhub_digest_thm`: with no token obtainable the
Docker Hub resolution is absent. -/
theorem dockerhub_digest_witness :
    get_latest_digest envHubNone "docker.io" "library/nginx" "latest" = none :=
  (dockerhub_digest_thm envHubNone "library/nginx" "latest").1 rfl

/-- C6 (amended): for GHCR and generic-OCI resolution on an HTTP 200
response, the returned digest is the `Docker-Content-Digest` response
header whenever that header is present with a non-empty value;
otherwise — header absent, or present but empty (Python's `if digest:`
is false on the empty string; see the counterexample) — it is the
SHA-256 hash of the raw response body bytes formatted as
`"sha256:<hex>"`. -/
theorem header_or_body_digest_thm (env : RegistryEnv) (registry repo : String)
    (resp : GetResponse) (h200 : resp.status = 200) :
    (env.ghcrGet = some resp →
      ((∀ d, resp.dockerContentDigest = some d → d ≠ "" →
         get_ghcr_digest env = some d) ∧
       (truthy resp.dockerContentDigest = false →
         get_ghcr_digest env = some ("sha256:" ++ env.sha256hex resp.body)))) ∧
    (env.genericGet = some resp →
      ((∀ d, resp.dockerContentDigest = some d → d ≠ "" →
         get_generic_registry_digest env registry repo = some d) ∧
       (truthy resp.dockerContentDigest = false →
         get_generic_registry_digest env registry repo =
           some ("sha256:" ++ env.sha256hex resp.body)))) := by
  constructor
  · intro hget
    constructor
    · intro d hd hne
      have htr : truthy (some d) = true := by simp [truthy, hne]
      simp [get_ghcr_digest, hget, h200, hd, htr]
    · intro htr
      simp [get_ghcr_digest, hget, h200, htr]
  · intro hget
    constructor
    · intro d hd hne
      have htr : truthy (some d) = true := by simp [truthy, hne]
      simp [get_generic_registry_digest, hget, h200, hd, htr]
    · intro htr
      simp [get_generic_registry_digest, hget, h200, htr]

/-- Witness for `header_or_body_digest_thm`: a 200 response with a
non-empty digest header yields that header value. -/
theorem header_or_body_digest_witness :
    get_ghcr_digest envGhcrHeader = some "sha256:xyz" :=
  ((header_or_body_digest_thm envGhcrHeader "r" "p" ⟨200, some "sha256:xyz", []⟩
    rfl).1 rfl).1 "sha256:xyz" rfl (by decide)

/-- C6 counterexample: on a 200 response whose `Docker-Content-Digest`
header is present with the empty value, the code does not return the
header value — `if digest:` is false on `""` — but hashes the body
instead. -/
theorem header_or_body_digest_cex :
    envGhcrEmptyHeader.ghcrGet = some ⟨200, some "", [0]⟩ ∧
    get_ghcr_digest envGhcrEmptyHeader = some "sha256:beef" ∧
    get_ghcr_digest envGhcrEmptyHeader ≠ some "" := by
  refine ⟨rfl, rfl, by decide⟩

/-- C7 (amended): generic-OCI authentication tries the candidate
endpoints in order — first `https://<registry>/token`, then
`https://auth.<registry>/token`. An attempt is skipped (the loop
continues) when its request raises, returns a non-200 status, or its
body fails to parse as JSON; the first attempt that returns HTTP 200
with a JSON body settles the result — the function returns that body's
`token` field, which may itself be absent, without trying the later
endpoint — and absence is returned when every attempt is skipped. The
embedded function is total: no exception escapes the provider. -/
theorem generic_token_order_thm (net : String → Option TokenResponse)
    (registry repo : String) (u1 u2 : String)
    (hurls : authUrls registry repo = [u1, u2]) :
    (∀ t, tryAttempt (net u1) = some t →
      get_generic_registry_token net registry repo = t) ∧
    (tryAttempt (net u1) = none → ∀ t, tryAttempt (net u2) = some t →
      get_generic_registry_token net registry repo = t) ∧
    (tryAttempt (net u1) = none → tryAttempt (net u2) = none →
      get_generic_registry_token net registry repo = none) := by
  unfold get_generic_registry_token
  rw [hurls]
  refine ⟨?_, ?_, ?_⟩
  · intro t h1
    simp [tokenLoop, h1]
  · intro h1 t h2
    simp [tokenLoop, h1, h2]
  · intro h1 h2
    simp [tokenLoop, h1, h2]

/-- Witness for `generic_token_order_thm`: a first endpoint answering
200 with a token settles the result. -/
theorem generic_token_order_witness :
    get_generic_registry_token netTokenEverywhere "example.com" "app" =
      some "tok" :=
  (generic_token_order_thm netTokenEverywhere "example.com" "app"
    "https://example.com/token?scope=repository:app:pull"
    "https://auth.example.com/token?scope=repository:app:pull"
    (by decide)).1 (some "tok") rfl

/-- C7 counterexample: when the first endpoint answers HTTP 200 with a
JSON body that has no `token` field while the second endpoint would
supply a token, the code returns absence without trying the second
endpoint — against the claim that the first successfully obtained token
is returned and absence arises only when both attempts fail
(`genericTokenClaim`, stated from the claim's words, returns the
second endpoint's token here). -/
theorem generic_token_order_cex :
    get_generic_registry_token netFirstTokenless "example.com" "app" = none ∧
    genericTokenClaim netFirstTokenless "example.com" "app" = some "tok2" := by
  refine ⟨by decide, by decide⟩

end CheckImages
